import Mathlib

/-!
Shallow embedding of the joystick input-normalization and command-dispatch
engine of telloterm (`joystick.go`), together with theorems settling the
frozen claims about it.

Conventions of the embedding:
* Go `int` values are `Int`; Go `int16` arithmetic is made explicit with
  `toInt16` (wrap into the range −32768..32767) at every narrowing point,
  exactly where the source converts or may overflow.
* Go slices (`axes []int`, `buttons []uint`) are `List Nat`; a Go sparse
  composite literal `[]uint{i: v, ...}` of maximal index `k` has length
  `k+1` with zero defaults, and the lists below are written out in that
  expanded form, one comment per profile recording the literal.
* An out-of-range slice index panics in Go; lookups whose in-boundedness is
  in question are modelled with `List.get?` (`none` = panic), and a poll
  cycle is modelled as the list of external actions it emits before the
  first such fault, plus a fault flag (`cycleActions`).
* The raw device state (`joystick.State`) is a total function for the axis
  array plus a `Nat` button bitmask standing for the Go `uint32`.
-/

namespace TelloJoystick

/-- Logical stick-axis constants (Go: `axLeftX = iota` block). -/
def axLeftX : Nat := 0

/-- Logical axis LeftY. -/
def axLeftY : Nat := 1

/-- Logical axis RightX. -/
def axRightX : Nat := 2

/-- Logical axis RightY. -/
def axRightY : Nat := 3

/-- Logical axis L1 (unpopulated by current profiles). -/
def axL1 : Nat := 4

/-- Logical axis L2 (unpopulated by current profiles). -/
def axL2 : Nat := 5

/-- Logical axis R1 (unpopulated by current profiles). -/
def axR1 : Nat := 6

/-- Logical axis R2 (unpopulated by current profiles). -/
def axR2 : Nat := 7

/-- Logical button constants (Go: `btnX = iota` block). -/
def btnX : Nat := 0

/-- Logical button Circle. -/
def btnCircle : Nat := 1

/-- Logical button Triangle. -/
def btnTriangle : Nat := 2

/-- Logical button Square. -/
def btnSquare : Nat := 3

/-- Logical button L1. -/
def btnL1 : Nat := 4

/-- Logical button L2. -/
def btnL2 : Nat := 5

/-- Logical button L3. -/
def btnL3 : Nat := 6

/-- Logical button R1. -/
def btnR1 : Nat := 7

/-- Logical button R2. -/
def btnR2 : Nat := 8

/-- Logical button R3. -/
def btnR3 : Nat := 9

/-- Logical button D-pad Left. -/
def btnDL : Nat := 10

/-- Logical button D-pad Right. -/
def btnDR : Nat := 11

/-- Logical button D-pad Up. -/
def btnDU : Nat := 12

/-- Logical button D-pad Down. -/
def btnDD : Nat := 13

/-- Logical button Unknown. -/
def btnUnknown : Nat := 14

/-- Feature-flag constant (Go: `flipsEnabled = iota`). -/
def flipsEnabled : Nat := 0

/-- Dead-zone threshold (Go: `const deadZone = 2000`). -/
def deadZone : Int := 2000

/-- Device profile (Go: `type joystickConfig struct`). -/
structure joystickConfig where
  axes : List Nat
  buttons : List Nat
  features : List Bool
  deriving DecidableEq

/-- Go: `var dualShock4Config`. Buttons literal
`{btnX: 0, btnCircle: 1, btnTriangle: 2, btnSquare: 3, btnL1: 4, btnL2: 6,
btnR1: 5, btnR2: 7}`: maximal index is btnR2 = 8, so the slice has length 9
with a zero default at btnL3 = 6; btnR3 = 9 and the D-pad buttons are out of
range. Axes literal `{axLeftX: 0, axLeftY: 1, axRightX: 3, axRightY: 4}`. -/
def dualShock4Config : joystickConfig :=
  { axes := [0, 1, 3, 4]
  , buttons := [0, 1, 2, 3, 4, 6, 0, 5, 7]
  , features := [false] }

/-- Go: `var eightBitDoSF30Pro`. Buttons literal
`{btnX: 0, btnCircle: 1, btnTriangle: 3, btnSquare: 2, btnL1: 4, btnL2: 6,
btnR1: 5, btnR2: 7, btnDL: 13, btnDR: 14, btnDU: 15, btnDD: 16}`:
length 14, zero defaults at btnL3 = 6 and btnR3 = 9. -/
def eightBitDoSF30Pro : joystickConfig :=
  { axes := [0, 1, 2, 3]
  , buttons := [0, 1, 3, 2, 4, 6, 0, 5, 7, 0, 13, 14, 15, 16]
  , features := [true] }

/-- Go: `var dualShock4ConfigWin`. Buttons literal
`{btnX: 1, btnCircle: 2, btnTriangle: 3, btnSquare: 0, btnL1: 4, btnL2: 6,
btnR1: 5, btnR2: 7}`: length 9, zero default at btnL3 = 6; btnR3 = 9 out of
range. -/
def dualShock4ConfigWin : joystickConfig :=
  { axes := [0, 1, 2, 3]
  , buttons := [1, 2, 3, 0, 4, 6, 0, 5, 7]
  , features := [false] }

/-- Go: `var tflightHotasXConfig`. Buttons literal
`{btnR1: 0, btnL1: 1, btnR3: 2, btnL3: 3, btnSquare: 4, btnX: 5,
btnCircle: 6, btnTriangle: 7, btnR2: 8, btnL2: 9}`: length 10, every
dispatched button present. Axes literal
`{axLeftX: 4, axLeftY: 2, axRightX: 0, axRightY: 1}`. -/
def tflightHotasXConfig : joystickConfig :=
  { axes := [4, 2, 0, 1]
  , buttons := [5, 6, 7, 4, 1, 9, 3, 0, 8, 2]
  , features := [false] }

/-- Go: `var tflightSteamControllerConfig`. Buttons literal
`{btnR1: 7, btnL1: 6, btnR3: 14, btnL3: 13, btnSquare: 4, btnX: 2,
btnCircle: 3, btnTriangle: 5, btnR2: 9, btnL2: 8, btnDL: 19, btnDR: 20,
btnDU: 17, btnDD: 18}`: length 14. -/
def tflightSteamControllerConfig : joystickConfig :=
  { axes := [0, 1, 2, 3]
  , buttons := [2, 3, 5, 4, 6, 8, 13, 7, 9, 14, 19, 20, 17, 18]
  , features := [true] }

/-- Go conversion `int16(v)` on an `int`: two's-complement wrap into
−32768..32767. -/
def toInt16 (v : Int) : Int := ((v + 32768) % 65536) - 32768

/-- Go `int16` negation `-x`, which wraps at −32768. -/
def int16Neg (v : Int) : Int := toInt16 (-v)

/-- Go: `func intAbs(x int16) int16`. Note the wrap: `intAbs (-32768)` is
`-32768`, as in the source. -/
def intAbs (x : Int) : Int := if x < 0 then int16Neg x else x

/-- Raw controller snapshot (the fields of `joystick.State` the engine
reads): `AxisData []int` as a total function, `Buttons uint32` as a `Nat`
bitmask. -/
structure State where
  axisData : Nat → Int
  buttons : Nat

/-- The `tello.StickMessage` fields the engine writes (Go `int16`,
modelled as `Int` kept in `int16` range by the narrowing operations). -/
structure StickMessage where
  Rx : Int
  Ry : Int
  Lx : Int
  Ly : Int
  deriving DecidableEq

/-- Raw reading of the physical axis a profile maps a logical axis to
(Go: `jsState.AxisData[jsConfig.axes[ax]]`; every profile's axes table has
length 4 and the four lookups are in range, so a total default lookup is
faithful). -/
def rawAt (cfg : joystickConfig) (st : State) (ax : Nat) : Int :=
  st.axisData (cfg.axes.getD ax 0)

/-- One X-axis narrowing step of `readJoystick` (lines such as
`if raw == 32768 { sm.Rx = 32767 } else { sm.Rx = int16(raw) }`). -/
def narrowX (raw : Int) : Int :=
  if raw = 32768 then 32767 else toInt16 raw

/-- One Y-axis narrowing step of `readJoystick`
(`if raw == 32768 { sm.Ry = -32767 } else { sm.Ry = -int16(raw) }`);
the outer negation is itself `int16` arithmetic. -/
def narrowY (raw : Int) : Int :=
  if raw = 32768 then -32767 else int16Neg (toInt16 raw)

/-- The four narrowing assignments of `readJoystick`: the left stick feeds
`Rx`/`Ry` and the right stick feeds `Lx`/`Ly`, as in the source. -/
def narrowedSticks (cfg : joystickConfig) (st : State) : StickMessage :=
  { Rx := narrowX (rawAt cfg st axLeftX)
  , Ry := narrowY (rawAt cfg st axLeftY)
  , Lx := narrowX (rawAt cfg st axRightX)
  , Ly := narrowY (rawAt cfg st axRightY) }

/-- The per-field dead-zone block of `readJoystick`
(`if intAbs(sm.Lx) < deadZone { sm.Lx = 0 }` and the three like it). -/
def deadZoned (sm : StickMessage) : StickMessage :=
  { Lx := if intAbs sm.Lx < deadZone then 0 else sm.Lx
  , Ly := if intAbs sm.Ly < deadZone then 0 else sm.Ly
  , Rx := if intAbs sm.Rx < deadZone then 0 else sm.Rx
  , Ry := if intAbs sm.Ry < deadZone then 0 else sm.Ry }

/-- Go test `state.Buttons & (1 << bit) != 0`; the shift is `uint32`
arithmetic, hence the reduction modulo 2^32. -/
def isDown (buttons bit : Nat) : Bool :=
  buttons &&& ((1 <<< bit) % 2 ^ 32) != 0

/-- The precision-scaling block of `readJoystick`: while R2 is held every
stick output is divided by 3 (`sm.Lx /= 3` etc., Go `int16` division,
truncating toward zero — `Int.tdiv`). The btnR2 lookup is in range for all
five profiles (`cycleActions` models the panic should it not be). -/
def scaled (cfg : joystickConfig) (st : State) (sm : StickMessage) : StickMessage :=
  if isDown st.buttons (cfg.buttons.getD btnR2 0) then
    { Lx := Int.tdiv sm.Lx 3
    , Ly := Int.tdiv sm.Ly 3
    , Rx := Int.tdiv sm.Rx 3
    , Ry := Int.tdiv sm.Ry 3 }
  else sm

/-- The complete stick pipeline of one poll cycle: narrow (with sentinel
clamp and Y inversion), then dead-zone, then precision scaling. A pure
function of the current raw state only. -/
def stickOutput (cfg : joystickConfig) (st : State) : StickMessage :=
  scaled cfg st (deadZoned (narrowedSticks cfg st))

/-- A raw state whose axis array reads `v` at physical index `i` and 0
elsewhere, with button bitmask `mask`. -/
def oneAxisState (i : Nat) (v : Int) (mask : Nat) : State :=
  { axisData := fun j => if j = i then v else 0, buttons := mask }

/-- External calls a poll cycle can make in operational mode: the vehicle
actions of the dispatch table plus the unconditional stick-message send. -/
inductive Action where
  | SetSlowMode
  | Bounce
  | SetFastMode
  | PalmLand
  | ThrowTakeOff
  | TakeOff
  | TakePicture
  | Land
  | LeftFlip
  | RightFlip
  | ForwardFlip
  | BackFlip
  | SendStick (sm : StickMessage)
  deriving DecidableEq

/-- Rising-edge test of `readJoystick`:
`jsState.Buttons&(1<<bit) != 0 && prevState.Buttons&(1<<bit) == 0`. -/
def pressedEdge (prevB curB bit : Nat) : Bool :=
  isDown curB bit && !(isDown prevB bit)

/-- One edge-dispatch block of `readJoystick`: look the button's bit up in
the profile (a failed lookup is the Go index-out-of-range panic: the fault
flag is raised and every later block is skipped), and on a rising edge
append the block's external actions. -/
def stepEdge (cfg : joystickConfig) (prev cur : State) (b : Nat)
    (acts : List Action) (acc : List Action × Bool) : List Action × Bool :=
  if acc.2 then acc
  else
    match cfg.buttons[b]? with
    | none => (acc.1, true)
    | some bit =>
      if pressedEdge prev.buttons cur.buttons bit then (acc.1 ++ acts, false)
      else acc

/-- Run a sequence of edge-dispatch blocks in source order. -/
def runEdges (cfg : joystickConfig) (prev cur : State)
    (table : List (Nat × List Action)) (acc : List Action × Bool) :
    List Action × Bool :=
  table.foldl (fun a p => stepEdge cfg prev cur p.1 p.2 a) acc

/-- The unconditional edge-dispatch blocks of `readJoystick`, in source
order: L1, L2, R1, then L3 and R3 (looked up but bound to no operational
action), then Square (whose action branches on `Flying`), Triangle,
Circle, X. -/
def edgeTable (flying : Bool) : List (Nat × List Action) :=
  [ (btnL1, [Action.SetSlowMode])
  , (btnL2, [Action.Bounce])
  , (btnR1, [Action.SetFastMode])
  , (btnL3, [])
  , (btnR3, [])
  , (btnSquare, [if flying then Action.PalmLand else Action.ThrowTakeOff])
  , (btnTriangle, [Action.TakeOff])
  , (btnCircle, [Action.TakePicture])
  , (btnX, [Action.Land]) ]

/-- The feature-gated D-pad blocks of `readJoystick`, in source order. -/
def flipTable : List (Nat × List Action) :=
  [ (btnDL, [Action.LeftFlip])
  , (btnDR, [Action.RightFlip])
  , (btnDU, [Action.ForwardFlip])
  , (btnDD, [Action.BackFlip]) ]

/-- One iteration of the `readJoystick` loop body in operational mode
(`test = false`): the btnR2 lookup for precision scaling, the stick-message
send, the fixed edge blocks, and — only if the profile's flips feature is
set — the D-pad blocks. Result: the external calls made before the first
out-of-range button lookup, and whether such a fault (Go panic) occurred. -/
def cycleActions (cfg : joystickConfig) (prev cur : State) (flying : Bool) :
    List Action × Bool :=
  match cfg.buttons[btnR2]? with
  | none => ([], true)
  | some _ =>
    let acc := runEdges cfg prev cur (edgeTable flying)
      ([Action.SendStick (stickOutput cfg cur)], false)
    if cfg.features.getD flipsEnabled false then
      runEdges cfg prev cur flipTable acc
    else acc

/-- The poll loop over a list of successive raw states (`prevState` starts
as the zero value and is replaced by the cycle's state at the end of each
iteration): the concatenation of the external calls of every cycle, cut
short when a cycle faults (the panic kills the loop). -/
def runCycles (cfg : joystickConfig) (flying : Bool) :
    State → List State → List Action
  | _, [] => []
  | prev, cur :: rest =>
    (cycleActions cfg prev cur flying).1 ++
      (if (cycleActions cfg prev cur flying).2 then []
       else runCycles cfg flying cur rest)

/-- Number of rising edges of bit `bit` along a run of button bitmasks
starting from previous mask `prev`. -/
def edgeCount (bit prev : Nat) : List Nat → Nat
  | [] => 0
  | m :: rest =>
    (if pressedEdge prev m bit then 1 else 0) + edgeCount bit m rest

/-- The four flip actions, for the feature-gating statements. -/
def flipActionList : List Action :=
  [Action.LeftFlip, Action.RightFlip, Action.ForwardFlip, Action.BackFlip]

/-- Expected number of copies of action `a` a table of edge blocks emits in
one faultless cycle: the blocks whose button shows a rising edge each
contribute their action list's count of `a`. -/
def tableCount (cfg : joystickConfig) (prev cur : State) (a : Action) :
    List (Nat × List Action) → Nat
  | [] => 0
  | p :: rest =>
    (if pressedEdge prev.buttons cur.buttons ((cfg.buttons[p.1]?).getD 0)
     then p.2.count a else 0) + tableCount cfg prev cur a rest

/-- Profile selection (Go: `setupJoystick`): `none` models the
`log.Fatal` exits — a nil or empty `-jstype` flag, or a model name not in
the switch; otherwise the switch selects the profile, with the OS consulted
only in the DualShock4 case. -/
def selectProfile (jsType : Option String) (goos : String) :
    Option joystickConfig :=
  match jsType with
  | none => none
  | some model =>
    if model = "" then none
    else if model = "DualShock4" then
      some (if goos = "windows" then dualShock4ConfigWin else dualShock4Config)
    else if model = "HotasX" then some tflightHotasXConfig
    else if model = "EightBitDoSF30Pro" then some eightBitDoSF30Pro
    else if model = "SteamController" then some tflightSteamControllerConfig
    else none

/-- Values already in the signed 16-bit range are fixed by the narrowing
conversion. -/
theorem toInt16_eq_self {v : Int} (h1 : -32768 ≤ v) (h2 : v ≤ 32767) :
    toInt16 v = v := by
  unfold toInt16
  omega

/-- A value of magnitude below the dead-zone threshold is below it for the
source's `intAbs` as well. -/
theorem intAbs_lt_deadZone {v : Int} (h : |v| < deadZone) :
    intAbs v < deadZone := by
  rw [abs_lt] at h
  unfold deadZone at h
  unfold intAbs int16Neg toInt16 deadZone
  split <;> omega

/-- C10: for raw magnitudes strictly between the sentinel 32768 and 65535
the narrowing is two's-complement wraparound — an X axis yields the
negative value m − 65536 and a Y axis the positive value 65536 − m — and
only the exact sentinel 32768 is clamped (to 32767 and −32767). -/
theorem narrow_wraparound_above_sentinel (m : Int) (h1 : 32768 < m)
    (h2 : m ≤ 65535) :
    narrowX m = m - 65536 ∧ narrowY m = 65536 - m ∧
    narrowX m < 0 ∧ 0 < narrowY m ∧
    narrowX 32768 = 32767 ∧ narrowY 32768 = -32767 := by
  have hne : m ≠ 32768 := by omega
  have hx : toInt16 m = m - 65536 := by unfold toInt16; omega
  have hX : narrowX m = m - 65536 := by rw [narrowX, if_neg hne, hx]
  have hY : narrowY m = 65536 - m := by
    rw [narrowY, if_neg hne, hx, int16Neg]
    unfold toInt16
    omega
  exact ⟨hX, hY, by omega, by omega, by simp [narrowX], by simp [narrowY]⟩

/-- Witness for C10 at the concrete raw magnitude 40000. -/
theorem narrow_wraparound_witness :
    narrowX 40000 = -25536 ∧ narrowY 40000 = 25536 := by
  have h := narrow_wraparound_above_sentinel 40000 (by norm_num) (by norm_num)
  refine ⟨?_, ?_⟩
  · rw [h.1]; norm_num
  · rw [h.2.1]; norm_num

/-- C3 counterexample: at the maximum representable unsigned value 65535
(what the claim calls the saturation sentinel) the code does not clamp —
the X narrowing wraps to −1 and the Y narrowing to +1, not ±32767. -/
theorem narrow_at_max_unsigned_not_clamped :
    narrowX 65535 = -1 ∧ narrowY 65535 = 1 ∧
    narrowX 65535 ≠ 32767 ∧ narrowY 65535 ≠ -32767 := by
  decide

/-- C3 (amended): the saturation sentinel the code clamps is the raw value
32768 (one above the signed 16-bit maximum): for every profile and every
axis, a raw reading of exactly 32768 narrows to +32767 on the X axes and to
−32767 on the Y axes. -/
theorem sentinel_clamp_per_axis (cfg : joystickConfig) (st : State) :
    (rawAt cfg st axLeftX = 32768 → (narrowedSticks cfg st).Rx = 32767) ∧
    (rawAt cfg st axLeftY = 32768 → (narrowedSticks cfg st).Ry = -32767) ∧
    (rawAt cfg st axRightX = 32768 → (narrowedSticks cfg st).Lx = 32767) ∧
    (rawAt cfg st axRightY = 32768 → (narrowedSticks cfg st).Ly = -32767) := by
  refine ⟨fun h => ?_, fun h => ?_, fun h => ?_, fun h => ?_⟩ <;>
    simp [narrowedSticks, narrowX, narrowY, h]

/-- Witness for the amended C3: DualShock4, physical axis 0 (LeftX) reading
the sentinel. -/
theorem sentinel_clamp_witness :
    (narrowedSticks dualShock4Config (oneAxisState 0 32768 0)).Rx = 32767 :=
  (sentinel_clamp_per_axis dualShock4Config (oneAxisState 0 32768 0)).1
    (by decide)

/-- C2 counterexample: under the non-Windows DualShock4 profile, with the
physical axis mapped to logical LeftX reading the sentinel 32768 and every
other axis centered, the output's Lx field is 0, not 32767 — in the source
the left stick feeds the Rx/Ry fields (and indeed Rx is 32767 here). -/
theorem leftX_sentinel_lx_counterexample :
    (oneAxisState 0 32768 0).axisData (dualShock4Config.axes.getD axLeftX 0)
        = 32768 ∧
    (stickOutput dualShock4Config (oneAxisState 0 32768 0)).Lx = 0 ∧
    (stickOutput dualShock4Config (oneAxisState 0 32768 0)).Lx ≠ 32767 ∧
    (stickOutput dualShock4Config (oneAxisState 0 32768 0)).Rx = 32767 := by
  decide

/-- C2 (amended): under the non-Windows DualShock4 profile, when the raw
reading of the physical axis mapped to logical LeftX is the sentinel 32768
and the precision (R2) button is not held, the normalized output's Rx field
— the field the left stick's X axis feeds — is exactly 32767. -/
theorem leftX_sentinel_sets_Rx (st : State)
    (hx : rawAt dualShock4Config st axLeftX = 32768)
    (hr2 : isDown st.buttons (dualShock4Config.buttons.getD btnR2 0) = false) :
    (stickOutput dualShock4Config st).Rx = 32767 := by
  unfold stickOutput scaled
  rw [hr2]
  simp only [Bool.false_eq_true, if_false, deadZoned, narrowedSticks, hx]
  norm_num [narrowX, intAbs, deadZone]

/-- Witness for the amended C2. -/
theorem leftX_sentinel_sets_Rx_witness :
    (stickOutput dualShock4Config (oneAxisState 0 32768 0)).Rx = 32767 :=
  leftX_sentinel_sets_Rx (oneAxisState 0 32768 0) (by decide) (by decide)

/-- C4: per axis independently, any narrowed (sign-inverted) value of
absolute magnitude strictly below the threshold 2000 is forced to exactly
zero by the dead-zone block, and the pipeline applies the dead zone after
narrowing/inversion and before precision scaling. -/
theorem deadZone_per_axis (cfg : joystickConfig) (st : State) :
    (|(narrowedSticks cfg st).Lx| < deadZone →
      (deadZoned (narrowedSticks cfg st)).Lx = 0) ∧
    (|(narrowedSticks cfg st).Ly| < deadZone →
      (deadZoned (narrowedSticks cfg st)).Ly = 0) ∧
    (|(narrowedSticks cfg st).Rx| < deadZone →
      (deadZoned (narrowedSticks cfg st)).Rx = 0) ∧
    (|(narrowedSticks cfg st).Ry| < deadZone →
      (deadZoned (narrowedSticks cfg st)).Ry = 0) ∧
    stickOutput cfg st = scaled cfg st (deadZoned (narrowedSticks cfg st)) := by
  refine ⟨fun h => ?_, fun h => ?_, fun h => ?_, fun h => ?_, rfl⟩ <;>
    simp [deadZoned, intAbs_lt_deadZone h]

/-- Witness for C4: DualShock4, right-stick X (physical axis 3) deflected
by 100, inside the dead zone. -/
theorem deadZone_witness :
    |(narrowedSticks dualShock4Config (oneAxisState 3 100 0)).Lx| < deadZone ∧
    (deadZoned (narrowedSticks dualShock4Config (oneAxisState 3 100 0))).Lx
      = 0 :=
  ⟨by decide,
   (deadZone_per_axis dualShock4Config (oneAxisState 3 100 0)).1 (by decide)⟩

/-- C5: the stick output of a cycle is a pure function of that cycle's raw
state; when the R2 bit is set in the current bitmask all four outputs are
the truncating division by 3 of the dead-zoned values, and when it is clear
the dead-zoned values pass through unscaled. -/
theorem r2_precision_scaling (cfg : joystickConfig) (st : State) :
    (isDown st.buttons (cfg.buttons.getD btnR2 0) = true →
      stickOutput cfg st =
        { Lx := Int.tdiv (deadZoned (narrowedSticks cfg st)).Lx 3
        , Ly := Int.tdiv (deadZoned (narrowedSticks cfg st)).Ly 3
        , Rx := Int.tdiv (deadZoned (narrowedSticks cfg st)).Rx 3
        , Ry := Int.tdiv (deadZoned (narrowedSticks cfg st)).Ry 3 }) ∧
    (isDown st.buttons (cfg.buttons.getD btnR2 0) = false →
      stickOutput cfg st = deadZoned (narrowedSticks cfg st)) := by
  constructor <;> intro h <;> unfold stickOutput scaled <;> rw [h] <;> simp

/-- Witness for C5: DualShock4 with R2 (bit 7) held and the right-stick X
axis at 9000: the output is 9000 / 3 = 3000. -/
theorem r2_precision_scaling_witness :
    isDown (oneAxisState 3 9000 128).buttons
      (dualShock4Config.buttons.getD btnR2 0) = true ∧
    (stickOutput dualShock4Config (oneAxisState 3 9000 128)).Lx = 3000 := by
  refine ⟨by decide, ?_⟩
  rw [(r2_precision_scaling dualShock4Config (oneAxisState 3 9000 128)).1
    (by decide)]
  decide

/-- Along a run of bitmasks in which the button stays down, no rising edge
fires. -/
theorem edgeCount_of_held (bit : Nat) :
    ∀ (ms : List Nat) (prev : Nat), isDown prev bit = true →
      (∀ m ∈ ms, isDown m bit = true) → edgeCount bit prev ms = 0 := by
  intro ms
  induction ms with
  | nil => intro prev _ _; rfl
  | cons m rest ih =>
    intro prev hp hall
    have hm : isDown m bit = true := hall m (by simp)
    have hpe : pressedEdge prev m bit = false := by
      simp [pressedEdge, hp, hm]
    simp [edgeCount, hpe, ih m hm (fun x hx => hall x (by simp [hx]))]

/-- C6: a pressed edge fires exactly when the bit is set in the current
mask and clear in the previous one, and over any run in which the button
goes down and stays down for at least two cycles exactly one pressed edge
is produced. -/
theorem pressed_edge_unique (bit prevB : Nat) (ms : List Nat)
    (hup : isDown prevB bit = false)
    (hheld : ∀ m ∈ ms, isDown m bit = true)
    (hlen : 2 ≤ ms.length) :
    (∀ curB, (pressedEdge prevB curB bit = true ↔
      (isDown curB bit = true ∧ isDown prevB bit = false))) ∧
    edgeCount bit prevB ms = 1 := by
  refine ⟨fun curB => by simp [pressedEdge], ?_⟩
  match ms, hheld with
  | m :: rest, hheld =>
    have hm : isDown m bit = true := hheld m (by simp)
    have hrest : ∀ x ∈ rest, isDown x bit = true :=
      fun x hx => hheld x (by simp [hx])
    simp [edgeCount, pressedEdge, hm, hup,
      edgeCount_of_held bit rest m hm hrest]

/-- Witness for C6: bit 0, previous mask 0, held for two cycles. -/
theorem pressed_edge_unique_witness : edgeCount 0 0 [1, 1] = 1 :=
  (pressed_edge_unique 0 0 [1, 1] (by decide) (by decide) (by decide)).2

/-- The fault flag after one edge block: the incoming flag, or a failed
lookup; the edge itself never affects it. -/
theorem stepEdge_snd (cfg : joystickConfig) (prev cur : State) (b : Nat)
    (acts : List Action) (acc : List Action × Bool) :
    (stepEdge cfg prev cur b acts acc).2
      = (acc.2 || (cfg.buttons[b]?).isNone) := by
  obtain ⟨l, f⟩ := acc
  cases f
  · cases h : cfg.buttons[b]?
    · simp [stepEdge, h]
    · simp only [stepEdge, Bool.false_eq_true, if_false, h]
      split <;> simp
  · simp [stepEdge]

/-- The fault flag after a table of edge blocks: the incoming flag, or any
failed lookup in the table. -/
theorem runEdges_snd (cfg : joystickConfig) (prev cur : State) :
    ∀ (table : List (Nat × List Action)) (acc : List Action × Bool),
    (runEdges cfg prev cur table acc).2
      = (acc.2 || table.any (fun p => (cfg.buttons[p.1]?).isNone)) := by
  intro table
  induction table with
  | nil => intro acc; simp [runEdges]
  | cons p rest ih =>
    intro acc
    have hstep : runEdges cfg prev cur (p :: rest) acc
        = runEdges cfg prev cur rest (stepEdge cfg prev cur p.1 p.2 acc) := rfl
    rw [hstep, ih, stepEdge_snd]
    simp [Bool.or_assoc]

/-- Once raised the fault flag stays raised, so a faultless run started
faultless. -/
theorem runEdges_fault_mono (cfg : joystickConfig) (prev cur : State)
    (table : List (Nat × List Action)) (acc : List Action × Bool)
    (h : (runEdges cfg prev cur table acc).2 = false) : acc.2 = false := by
  rw [runEdges_snd] at h
  exact (Bool.or_eq_false_iff.mp h).1

/-- Count of an action through one faultless edge block. -/
theorem stepEdge_count (cfg : joystickConfig) (prev cur : State) (b : Nat)
    (acts : List Action) (acc : List Action × Bool) (a : Action)
    (h : (stepEdge cfg prev cur b acts acc).2 = false) :
    (stepEdge cfg prev cur b acts acc).1.count a
      = acc.1.count a +
        (if pressedEdge prev.buttons cur.buttons ((cfg.buttons[b]?).getD 0)
         then acts.count a else 0) := by
  obtain ⟨l, f⟩ := acc
  cases f
  · cases hb : cfg.buttons[b]?
    · rw [stepEdge_snd] at h
      simp [hb] at h
    · simp only [stepEdge, Bool.false_eq_true, if_false, hb, Option.getD_some]
      split <;> simp [List.count_append]
  · simp [stepEdge] at h

/-- Count of an action through a faultless table of edge blocks. -/
theorem runEdges_count (cfg : joystickConfig) (prev cur : State) (a : Action) :
    ∀ (table : List (Nat × List Action)) (acc : List Action × Bool),
    (runEdges cfg prev cur table acc).2 = false →
    (runEdges cfg prev cur table acc).1.count a
      = acc.1.count a + tableCount cfg prev cur a table := by
  intro table
  induction table with
  | nil => intro acc _; simp [runEdges, tableCount]
  | cons p rest ih =>
    intro acc h
    have hstep : runEdges cfg prev cur (p :: rest) acc
        = runEdges cfg prev cur rest (stepEdge cfg prev cur p.1 p.2 acc) := rfl
    rw [hstep] at h ⊢
    have h2 : (stepEdge cfg prev cur p.1 p.2 acc).2 = false :=
      runEdges_fault_mono cfg prev cur rest _ h
    rw [ih _ h, stepEdge_count cfg prev cur p.1 p.2 acc a h2]
    simp only [tableCount]
    omega

/-- An action absent from a block's list never enters through that block. -/
theorem stepEdge_not_mem (cfg : joystickConfig) (prev cur : State) (b : Nat)
    (acts : List Action) (acc : List Action × Bool) (a : Action)
    (hacts : a ∉ acts) (hacc : a ∉ acc.1) :
    a ∉ (stepEdge cfg prev cur b acts acc).1 := by
  obtain ⟨l, f⟩ := acc
  simp only [stepEdge]
  split
  · exact hacc
  · cases hb : cfg.buttons[b]? <;> simp only [hb]
    · exact hacc
    · split
      · simp only [List.mem_append]
        rintro (h | h)
        · exact hacc h
        · exact hacts h
      · exact hacc

/-- An action absent from every block of a table never enters through that
table. -/
theorem runEdges_not_mem (cfg : joystickConfig) (prev cur : State)
    (a : Action) :
    ∀ (table : List (Nat × List Action)) (acc : List Action × Bool),
    (∀ p ∈ table, a ∉ p.2) → a ∉ acc.1 →
    a ∉ (runEdges cfg prev cur table acc).1 := by
  intro table
  induction table with
  | nil => intro acc _ hacc; exact hacc
  | cons p rest ih =>
    intro acc htab hacc
    show a ∉ (runEdges cfg prev cur rest (stepEdge cfg prev cur p.1 p.2 acc)).1
    exact ih _ (fun q hq => htab q (by simp [hq]))
      (stepEdge_not_mem cfg prev cur p.1 p.2 acc a (htab p (by simp)) hacc)

/-- The fault flag of a whole cycle: the btnR2 lookup, any lookup of the
fixed edge table, or — when flips are enabled — any lookup of the D-pad
table; the raw state never affects it. -/
theorem cycleActions_snd (cfg : joystickConfig) (prev cur : State)
    (flying : Bool) :
    (cycleActions cfg prev cur flying).2 =
      ((cfg.buttons[btnR2]?).isNone ||
       ((edgeTable flying).any (fun p => (cfg.buttons[p.1]?).isNone) ||
        (cfg.features.getD flipsEnabled false &&
         flipTable.any (fun p => (cfg.buttons[p.1]?).isNone)))) := by
  unfold cycleActions
  cases hb : cfg.buttons[btnR2]?
  · simp
  · simp only [Option.isNone_some, Bool.false_or]
    split
    · rw [runEdges_snd, runEdges_snd]
      simp only [*, Bool.true_and, Bool.false_or, Bool.or_assoc]
    · rename_i hfeat
      rw [runEdges_snd]
      rw [Bool.not_eq_true] at hfeat
      rw [hfeat]
      simp

/-- C1 (the invariant the spec demands, violated by the code): under either
DualShock4 profile the R3 edge check reads buttons index btnR3 = 9 in a
table of length 9 — an index-out-of-range fault on every poll cycle — while
the three other profiles fault on no cycle. -/
theorem dualShock4_r3_lookup_fault (prev cur : State) (flying : Bool) :
    dualShock4Config.buttons[btnR3]? = none ∧
    dualShock4ConfigWin.buttons[btnR3]? = none ∧
    (cycleActions dualShock4Config prev cur flying).2 = true ∧
    (cycleActions dualShock4ConfigWin prev cur flying).2 = true ∧
    (cycleActions eightBitDoSF30Pro prev cur flying).2 = false ∧
    (cycleActions tflightHotasXConfig prev cur flying).2 = false ∧
    (cycleActions tflightSteamControllerConfig prev cur flying).2 = false := by
  refine ⟨rfl, rfl, ?_, ?_, ?_, ?_, ?_⟩ <;> rw [cycleActions_snd] <;>
    cases flying <;> decide

/-- No flip action occurs in any block of the fixed edge table. -/
theorem flip_not_in_edgeTable :
    ∀ (flying : Bool), ∀ a ∈ flipActionList, ∀ p ∈ edgeTable flying,
      a ∉ p.2 := by
  decide

/-- Unfolding of a cycle when the btnR2 lookup faults. -/
theorem cycleActions_of_none (cfg : joystickConfig) (prev cur : State)
    (flying : Bool) (hb : cfg.buttons[btnR2]? = none) :
    cycleActions cfg prev cur flying = ([], true) := by
  unfold cycleActions
  rw [hb]

/-- Unfolding of a cycle when the btnR2 lookup succeeds. -/
theorem cycleActions_of_some (cfg : joystickConfig) (prev cur : State)
    (flying : Bool) {v : Nat} (hb : cfg.buttons[btnR2]? = some v) :
    cycleActions cfg prev cur flying =
      (if cfg.features.getD flipsEnabled false then
        runEdges cfg prev cur flipTable
          (runEdges cfg prev cur (edgeTable flying)
            ([Action.SendStick (stickOutput cfg cur)], false))
      else
        runEdges cfg prev cur (edgeTable flying)
          ([Action.SendStick (stickOutput cfg cur)], false)) := by
  unfold cycleActions
  rw [hb]

/-- An action absent from both dispatch tables and distinct from the stick
send is never emitted by a cycle. -/
theorem cycle_not_mem (cfg : joystickConfig) (prev cur : State)
    (flying : Bool) (a : Action)
    (hedge : ∀ p ∈ edgeTable flying, a ∉ p.2)
    (hflip : ∀ p ∈ flipTable, a ∉ p.2)
    (hsend : ∀ sm, a ≠ Action.SendStick sm) :
    a ∉ (cycleActions cfg prev cur flying).1 := by
  have hacc : a ∉ [Action.SendStick (stickOutput cfg cur)] := by
    simp only [List.mem_singleton]
    exact hsend _
  cases hb : cfg.buttons[btnR2]? with
  | none =>
    rw [cycleActions_of_none cfg prev cur flying hb]
    simp
  | some v =>
    rw [cycleActions_of_some cfg prev cur flying hb]
    split
    · exact runEdges_not_mem cfg prev cur a flipTable
        (runEdges cfg prev cur (edgeTable flying)
          ([Action.SendStick (stickOutput cfg cur)], false)) hflip
        (runEdges_not_mem cfg prev cur a (edgeTable flying)
          ([Action.SendStick (stickOutput cfg cur)], false) hedge hacc)
    · exact runEdges_not_mem cfg prev cur a (edgeTable flying)
        ([Action.SendStick (stickOutput cfg cur)], false) hedge hacc

/-- With the flips feature off, one cycle emits no flip action. -/
theorem cycle_no_flip_of_disabled (cfg : joystickConfig) (prev cur : State)
    (flying : Bool) (hf : cfg.features.getD flipsEnabled false = false)
    {a : Action} (ha : a ∈ flipActionList) :
    a ∉ (cycleActions cfg prev cur flying).1 := by
  have hacc : a ∉ [Action.SendStick (stickOutput cfg cur)] := by
    fin_cases ha <;> simp
  cases hb : cfg.buttons[btnR2]? with
  | none =>
    rw [cycleActions_of_none cfg prev cur flying hb]
    simp
  | some v =>
    rw [cycleActions_of_some cfg prev cur flying hb, hf]
    simp only [Bool.false_eq_true, if_false]
    exact runEdges_not_mem cfg prev cur a (edgeTable flying)
      ([Action.SendStick (stickOutput cfg cur)], false)
      (flip_not_in_edgeTable flying a ha) hacc

/-- With the flips feature off, no flip action is emitted over any input
sequence. -/
theorem runCycles_no_flip_of_disabled (cfg : joystickConfig) (flying : Bool)
    (hf : cfg.features.getD flipsEnabled false = false) {a : Action}
    (ha : a ∈ flipActionList) :
    ∀ (states : List State) (prev : State),
      a ∉ runCycles cfg flying prev states := by
  intro states
  induction states with
  | nil => intro prev; simp [runCycles]
  | cons cur rest ih =>
    intro prev
    simp only [runCycles]
    intro hmem
    rcases List.mem_append.mp hmem with h | h
    · exact cycle_no_flip_of_disabled cfg prev cur flying hf ha h
    · by_cases hfault : (cycleActions cfg prev cur flying).2 = true
      · rw [if_pos hfault] at h
        simp at h
      · rw [if_neg hfault] at h
        exact ih cur h

/-- Count of an action over one faultless cycle, split by pipeline stage:
the stick send, the fixed edge table, and (when flips are enabled) the
D-pad table. -/
theorem cycleActions_count (cfg : joystickConfig) (prev cur : State)
    (flying : Bool) (a : Action)
    (h : (cycleActions cfg prev cur flying).2 = false) :
    (cycleActions cfg prev cur flying).1.count a
      = ([Action.SendStick (stickOutput cfg cur)].count a
          + tableCount cfg prev cur a (edgeTable flying))
        + (if cfg.features.getD flipsEnabled false then
             tableCount cfg prev cur a flipTable
           else 0) := by
  rw [cycleActions_snd] at h
  simp only [Bool.or_eq_false_iff] at h
  obtain ⟨h1, h2, h3⟩ := h
  cases hb : cfg.buttons[btnR2]? with
  | none =>
    rw [hb] at h1
    simp at h1
  | some v =>
    rw [cycleActions_of_some cfg prev cur flying hb]
    have hmidsnd : (runEdges cfg prev cur (edgeTable flying)
        ([Action.SendStick (stickOutput cfg cur)], false)).2 = false := by
      rw [runEdges_snd]
      simp [h2]
    split
    · rename_i hfeat
      rw [hfeat] at h3
      rw [Bool.true_and] at h3
      have hfullsnd : (runEdges cfg prev cur flipTable
          (runEdges cfg prev cur (edgeTable flying)
            ([Action.SendStick (stickOutput cfg cur)], false))).2 = false := by
        rw [runEdges_snd, hmidsnd, h3]
        rfl
      rw [runEdges_count cfg prev cur a flipTable _ hfullsnd,
        runEdges_count cfg prev cur a (edgeTable flying) _ hmidsnd]
    · rename_i hfeat
      rw [runEdges_count cfg prev cur a (edgeTable flying) _ hmidsnd]
      simp only [Nat.add_zero]

/-- C7: with the flips feature off, no flip action is emitted over any
input sequence; with it on, a faultless cycle emits exactly one matching
flip call per D-pad rising edge (Left/Right/Up/Down giving
LeftFlip/RightFlip/ForwardFlip/BackFlip respectively). -/
theorem flips_gating (cfg : joystickConfig) (flying : Bool) :
    (cfg.features.getD flipsEnabled false = false →
      ∀ (prev : State) (states : List State), ∀ a ∈ flipActionList,
        a ∉ runCycles cfg flying prev states) ∧
    (cfg.features.getD flipsEnabled false = true →
      ∀ (prev cur : State), (cycleActions cfg prev cur flying).2 = false →
        ((cycleActions cfg prev cur flying).1.count Action.LeftFlip
          = if pressedEdge prev.buttons cur.buttons
              ((cfg.buttons[btnDL]?).getD 0) then 1 else 0) ∧
        ((cycleActions cfg prev cur flying).1.count Action.RightFlip
          = if pressedEdge prev.buttons cur.buttons
              ((cfg.buttons[btnDR]?).getD 0) then 1 else 0) ∧
        ((cycleActions cfg prev cur flying).1.count Action.ForwardFlip
          = if pressedEdge prev.buttons cur.buttons
              ((cfg.buttons[btnDU]?).getD 0) then 1 else 0) ∧
        ((cycleActions cfg prev cur flying).1.count Action.BackFlip
          = if pressedEdge prev.buttons cur.buttons
              ((cfg.buttons[btnDD]?).getD 0) then 1 else 0)) := by
  constructor
  · intro hf prev states a ha
    exact runCycles_no_flip_of_disabled cfg flying hf ha states prev
  · intro hf prev cur h
    refine ⟨?_, ?_, ?_, ?_⟩ <;>
      rw [cycleActions_count cfg prev cur flying _ h, if_pos hf] <;>
      cases flying <;>
      simp [tableCount, edgeTable, flipTable]

/-- Witness for C7: the SF30Pro profile (flips on) with a D-pad Left rising
edge (bit 13) emits exactly one LeftFlip; the DualShock4 profile (flips
off) emits none over the same input. -/
theorem flips_gating_witness :
    (cycleActions eightBitDoSF30Pro (oneAxisState 0 0 0)
      (oneAxisState 0 0 8192) true).1.count Action.LeftFlip = 1 ∧
    Action.LeftFlip ∉ runCycles dualShock4Config true (oneAxisState 0 0 0)
      [oneAxisState 0 0 8192] := by
  constructor
  · have h := ((flips_gating eightBitDoSF30Pro true).2 rfl
      (oneAxisState 0 0 0) (oneAxisState 0 0 8192) (by decide)).1
    rw [h]
    decide
  · exact (flips_gating dualShock4Config true).1 rfl (oneAxisState 0 0 0)
      [oneAxisState 0 0 8192] Action.LeftFlip (by decide)

/-- C8: in operational mode a cycle with `flying = true` never calls
throw-takeoff and a cycle with `flying = false` never calls palm-land; on a
faultless cycle whose Square button shows a rising edge, exactly one
palm-land call is made when flying and exactly one throw-takeoff call when
not flying. -/
theorem square_branching (cfg : joystickConfig) (prev cur : State) :
    Action.ThrowTakeOff ∉ (cycleActions cfg prev cur true).1 ∧
    Action.PalmLand ∉ (cycleActions cfg prev cur false).1 ∧
    ((cycleActions cfg prev cur true).2 = false →
      pressedEdge prev.buttons cur.buttons ((cfg.buttons[btnSquare]?).getD 0)
        = true →
      (cycleActions cfg prev cur true).1.count Action.PalmLand = 1) ∧
    ((cycleActions cfg prev cur false).2 = false →
      pressedEdge prev.buttons cur.buttons ((cfg.buttons[btnSquare]?).getD 0)
        = true →
      (cycleActions cfg prev cur false).1.count Action.ThrowTakeOff = 1) := by
  refine ⟨?_, ?_, ?_, ?_⟩
  · exact cycle_not_mem cfg prev cur true Action.ThrowTakeOff (by decide)
      (by decide) (fun sm => by simp)
  · exact cycle_not_mem cfg prev cur false Action.PalmLand (by decide)
      (by decide) (fun sm => by simp)
  · intro h hedge
    rw [cycleActions_count cfg prev cur true _ h]
    simp [tableCount, edgeTable, flipTable, hedge]
  · intro h hedge
    rw [cycleActions_count cfg prev cur false _ h]
    simp [tableCount, edgeTable, flipTable, hedge]

/-- Witness for C8: the Hotas profile with a Square rising edge (bit 4)
while flying emits exactly one palm-land and no throw-takeoff. -/
theorem square_branching_witness :
    (cycleActions tflightHotasXConfig (oneAxisState 0 0 0)
      (oneAxisState 0 0 16) true).1.count Action.PalmLand = 1 ∧
    Action.ThrowTakeOff ∉ (cycleActions tflightHotasXConfig
      (oneAxisState 0 0 0) (oneAxisState 0 0 16) true).1 := by
  constructor
  · exact (square_branching tflightHotasXConfig (oneAxisState 0 0 0)
      (oneAxisState 0 0 16)).2.2.1 (by decide) (by decide)
  · exact (square_branching tflightHotasXConfig (oneAxisState 0 0 0)
      (oneAxisState 0 0 16)).1

/-- C9: profile selection fails fast (no profile, modelling the fatal
start-up exit) when the model name is missing, empty or unrecognized; each
recognized model yields its profile; the OS parameter affects the result
only for the DualShock4 model, whose Windows and non-Windows profiles
genuinely differ. -/
theorem profile_selection (os os2 m : String) :
    selectProfile none os = none ∧
    selectProfile (some "") os = none ∧
    (m ∉ (["DualShock4", "HotasX", "EightBitDoSF30Pro",
        "SteamController"] : List String) →
      selectProfile (some m) os = none) ∧
    selectProfile (some "DualShock4") "windows" = some dualShock4ConfigWin ∧
    (os ≠ "windows" →
      selectProfile (some "DualShock4") os = some dualShock4Config) ∧
    selectProfile (some "HotasX") os = some tflightHotasXConfig ∧
    selectProfile (some "EightBitDoSF30Pro") os = some eightBitDoSF30Pro ∧
    selectProfile (some "SteamController") os
      = some tflightSteamControllerConfig ∧
    (m ≠ "DualShock4" →
      selectProfile (some m) os = selectProfile (some m) os2) ∧
    dualShock4Config ≠ dualShock4ConfigWin := by
  refine ⟨rfl, by simp [selectProfile], ?_, by simp [selectProfile],
    fun h => by simp [selectProfile, h], by simp [selectProfile],
    by simp [selectProfile], by simp [selectProfile], ?_, by decide⟩
  · intro hm
    simp only [List.mem_cons, List.not_mem_nil, or_false, not_or] at hm
    obtain ⟨h1, h2, h3, h4⟩ := hm
    by_cases h0 : m = ""
    · simp [selectProfile, h0]
    · simp [selectProfile, h0, h1, h2, h3, h4]
  · intro h
    simp [selectProfile, h]

/-- Witness for C9 at concrete model names and operating systems. -/
theorem profile_selection_witness :
    selectProfile (some "Foo") "linux" = none ∧
    selectProfile (some "DualShock4") "linux" = some dualShock4Config ∧
    selectProfile (some "DualShock4") "windows" = some dualShock4ConfigWin := by
  have h := profile_selection "linux" "windows" "Foo"
  exact ⟨h.2.2.1 (by decide), h.2.2.2.2.1 (by decide), h.2.2.2.1⟩

end TelloJoystick
